import Mathlib

/-!
Shallow embedding of `kuryr_kubernetes/clients.py`, the client-registry and
factory module of the kuryr-kubernetes repository, together with proofs of
the specified properties of its registry, factories, SDK patch layer and
error translator.

Conventions of the embedding:
* The module-global dict `_clients` is threaded explicitly: every factory
  takes the registry and returns the updated registry together with the
  Python exception it raised, if any; every accessor takes the registry and
  returns it unchanged together with its result.
* Python exceptions become values of the inductive type `PyErr`.  A raised
  exception is an `Except.error` or a `some` in the error slot.
* JSON-like Python dict/list/str values become the inductive type `JVal`.
* External library calls (openstacksdk constructors, `raise_from_response`,
  the Python `ipaddress` module, `os.environ`) are modelled by executable
  Lean definitions that follow the semantics of those libraries; each such
  definition says so in its doc comment.
-/

namespace KuryrClients

/-- JSON-like Python values: strings, dicts and lists, as used by the
request payloads and response bodies handled in `clients.py`. -/
inductive JVal where
  | str (s : String)
  | jdict (entries : List (String × JVal))
  | jlist (items : List JVal)

/-- Python exception values that the module (or the library helpers it
calls) can raise.  The openstack exception classes form a hierarchy:
`NotFoundException`, `BadRequestException` and `ConflictException` extend
`HttpException`, which extends `SDKException`; `KeyError`, `TypeError` and
`AttributeError` are Python builtins outside that hierarchy.
`sdkException` carries the two constructor arguments of
`openstack.exceptions.SDKException(message, extra_data)`: only `message`
becomes the exception text, `extra_data` is stored as a separate
attribute.  `notFoundException` carries the object passed as its
`message` keyword. -/
inductive PyErr where
  | keyError (key : String)
  | typeError (msg : String)
  | attributeError (attr : String)
  | sdkException (message : String) (extraData : Option String)
  | httpException (message : String) (httpStatus : Nat)
  | badRequestException (message : String) (httpStatus : Nat)
  | conflictException (message : String) (httpStatus : Nat)
  | notFoundException (message : JVal)

/-- Membership of a Python exception value in the `SDKException` class
(`openstack.exceptions`): every `HttpException` subclass, including
`NotFoundException`, is an `SDKException`. -/
def PyErr.isSDKError : PyErr → Bool
  | .sdkException _ _ => true
  | .httpException _ _ => true
  | .badRequestException _ _ => true
  | .conflictException _ _ => true
  | .notFoundException _ => true
  | _ => false

/-- Membership in the `NotFoundException` class. -/
def PyErr.isNotFound : PyErr → Bool
  | .notFoundException _ => true
  | _ => false

/-- Lookup in a Python dict modelled as an association list (keys are
unique in every dict the module builds, so first match is the value). -/
def alookup {α : Type} (d : List (String × α)) (k : String) : Option α :=
  match d with
  | [] => none
  | (k2, v) :: rest => if k2 = k then some v else alookup rest k

/-- Python dict assignment `d[k] = v` (also `d.update` with a one-key
dict): replaces the value in place if the key exists, appends otherwise,
preserving insertion order as CPython dicts do. -/
def assocSet {α : Type} (d : List (String × α)) (k : String) (v : α) :
    List (String × α) :=
  match d with
  | [] => [(k, v)]
  | (k2, v2) :: rest =>
      if k2 = k then (k2, v) :: rest else (k2, v2) :: assocSet rest k v

/-! Model of the Python standard library `ipaddress` module, as far as
`setup_kubernetes_client` uses it: classifying a host string as an IPv4
literal, an IPv6 literal, or neither.  The definitions below follow the
string-parsing rules of `ipaddress.IPv4Address` and `ipaddress.IPv6Address`
(`_ip_int_from_string`); only acceptance is modelled, not the numeric
value, because `clients.py` reads nothing but `addr.version`. -/

/-- ASCII decimal digit, as accepted by the octet parser. -/
def isPyDigit (c : Char) : Bool := '0' ≤ c && c ≤ '9'

/-- ASCII hexadecimal digit, as accepted by the hextet parser. -/
def isPyHexDigit (c : Char) : Bool :=
  isPyDigit c || ('a' ≤ c && c ≤ 'f') || ('A' ≤ c && c ≤ 'F')

/-- Numeric value of a string of decimal digits. -/
def decChars (cs : List Char) : Nat :=
  cs.foldl (fun a c => 10 * a + (c.toNat - 48)) 0

/-- Python `str.split(sep)` for a one-character separator, on character
lists (structural recursion, so that proofs can evaluate it). -/
def splitOnChar (c : Char) : List Char → List (List Char)
  | [] => [[]]
  | d :: rest =>
      match splitOnChar c rest with
      | [] => if d = c then [[], []] else [[d]]
      | hd :: tl => if d = c then [] :: hd :: tl else (d :: hd) :: tl

/-- Acceptance of one dotted-quad octet (`_parse_octet`): one to three
decimal digits, no leading zero, value at most 255. -/
def parseOctet (cs : List Char) : Bool :=
  decide (0 < cs.length) && decide (cs.length ≤ 3) && cs.all isPyDigit &&
    (decide (cs.length = 1) || decide (cs.head? ≠ some '0')) &&
    decide (decChars cs ≤ 255)

/-- Acceptance of a character list by `ipaddress.IPv4Address`: exactly
four octets separated by dots. -/
def ipv4Chars (cs : List Char) : Bool :=
  let parts := splitOnChar '.' cs
  decide (parts.length = 4) && parts.all parseOctet

/-- Acceptance of a string by `ipaddress.IPv4Address`. -/
def is_ipv4 (s : String) : Bool :=
  ipv4Chars s.data

/-- Acceptance of one IPv6 hextet (`_parse_hextet`): one to four
hexadecimal digits. -/
def parseHextet (cs : List Char) : Bool :=
  decide (0 < cs.length) && decide (cs.length ≤ 4) && cs.all isPyHexDigit

/-- Conversion of a trailing IPv4-style suffix into two hextets, as
`IPv6Address._ip_int_from_string` does when the last colon-separated part
contains a dot: the suffix must itself be a valid IPv4 literal and is
replaced by two hextets (their numeric value does not affect acceptance,
so placeholder hextets stand for the two converted halves). -/
def ipv6ConvertSuffix (parts : List (List Char)) :
    Option (List (List Char)) :=
  match parts.getLast? with
  | none => none
  | some last =>
      if last.contains '.' then
        if ipv4Chars last then some (parts.dropLast ++ [['0'], ['0']])
        else none
      else some parts

/-- Acceptance of a character list by `ipaddress.IPv6Address`
(`_ip_int_from_string`): at least three colon-separated parts, at most
nine after IPv4-suffix conversion, at most one empty interior part (the
`::` gap), an empty first or last part only next to the gap, at least one
group actually skipped by the gap, and every remaining part a valid
hextet.  Scope identifiers (`%zone`, accepted from Python 3.9 on) are not
modelled; no claim involves them. -/
def ipv6Chars (cs : List Char) : Bool :=
  if cs.isEmpty then false
  else
    let parts0 := splitOnChar ':' cs
    if parts0.length < 3 then false
    else
      match ipv6ConvertSuffix parts0 with
      | none => false
      | some parts =>
          let n := parts.length
          if 9 < n then false
          else
            let empties := (List.range n).filter (fun i =>
              decide (0 < i) && decide (i + 1 < n) &&
                (parts.getD i ['x']).isEmpty)
            match empties with
            | [] => decide (n = 8) && parts.all parseHextet
            | [skip] =>
                let headEmpty := (parts.headD ['x']).isEmpty
                let lastEmpty := (parts.getLastD ['x']).isEmpty
                let hi := if headEmpty then skip - 1 else skip
                let lo0 := n - skip - 1
                let lo := if lastEmpty then lo0 - 1 else lo0
                if headEmpty && decide (hi ≠ 0) then false
                else if lastEmpty && decide (lo ≠ 0) then false
                else if 8 ≤ hi + lo then false
                else (parts.take hi).all parseHextet &&
                  (parts.drop (n - lo)).all parseHextet
            | _ => false

/-- Acceptance of a string by `ipaddress.IPv6Address`. -/
def is_ipv6 (s : String) : Bool :=
  ipv6Chars s.data

/-- IP version reported by `ipaddress.ip_address`. -/
inductive IPVersion where
  | v4
  | v6
deriving Repr, DecidableEq

/-- Model of `ipaddress.ip_address(host).version` for a string argument:
first the IPv4 parser is tried, then the IPv6 parser; `none` models the
`ValueError` raised when neither accepts. -/
def ip_address (s : String) : Option IPVersion :=
  if is_ipv4 s then some .v4
  else if is_ipv6 s then some .v6
  else none

/-! Data model: the client handles held by the registry.  The handles are
opaque transport objects in Python; the model keeps exactly the structure
that `clients.py` reads or writes on them. -/

/-- The `network` proxy of an openstacksdk connection.  The three Boolean
fields record whether the corresponding extra operation has been assigned
onto the proxy object (`conn.network.create_ports = ...` and the two trunk
operations); a freshly constructed connection has none of them. -/
structure NetworkClient where
  create_ports_attached : Bool
  add_trunk_subports_attached : Bool
  delete_trunk_subports_attached : Bool
deriving Repr, DecidableEq

/-- The `load_balancer` proxy of an openstacksdk connection; `clients.py`
only passes it through, so it is a marker value. -/
inductive LoadBalancerClient where
  | mk
deriving Repr, DecidableEq

/-- The `compute` proxy of an openstacksdk connection; `clients.py` only
passes it through, so it is a marker value. -/
inductive ComputeClient where
  | mk
deriving Repr, DecidableEq

/-- An openstacksdk `connection.Connection` as `clients.py` uses it: the
region it was constructed with and its three sub-client proxies.  The
authentication plugin and keystone session (from `kuryr.lib.utils`) are
consumed only by the constructor and are not read back anywhere, so they
are not recorded. -/
structure Connection where
  region_name : Option String
  network : NetworkClient
  load_balancer : LoadBalancerClient
  compute : ComputeClient
deriving Repr, DecidableEq

/-- Model of `openstack.connection.Connection(session=..., region_name=...)`:
a fresh connection whose network proxy has none of the extra operations
attached. -/
def Connection.new (region : Option String) : Connection :=
  { region_name := region
    network := ⟨false, false, false⟩
    load_balancer := .mk
    compute := .mk }

/-- Modelled from the spec: `kuryr_kubernetes.k8s_client.K8sClient` (its
module is not part of the provided sources) is an API client bound to the
root URL it is constructed with, performing no network call at
construction time. -/
structure K8sClient where
  base_url : String
deriving Repr, DecidableEq

/-- The legacy neutron client produced by `kuryr.lib.utils.get_neutron_client()`
(an external library): `clients.py` only stores and returns it, so it is a
marker value. -/
inductive NeutronClient where
  | mk
deriving Repr, DecidableEq

/-- Modelled from the spec: `kuryr_kubernetes.pod_resources.client.PodResourcesClient`
(its module is not part of the provided sources) is a client for the local
resource-discovery endpoint rooted at the directory it is constructed
with. -/
structure PodResourcesClient where
  kubelet_root_dir : String
deriving Repr, DecidableEq

/-- A value stored in the `_clients` registry: one of the four kinds of
client handle the module constructs. -/
inductive Handle where
  | conn (c : Connection)
  | k8s (c : K8sClient)
  | neutron (c : NeutronClient)
  | pod_resources (c : PodResourcesClient)
deriving Repr, DecidableEq

/-- The module-global registry `_clients`, a Python dict from string keys
to client handles. -/
abbrev Registry := List (String × Handle)

/-- Initial value of `_clients`: the empty dict. -/
def clients_init : Registry := []

def NEUTRON_CLIENT : String := "neutron-client"

def KUBERNETES_CLIENT : String := "kubernetes-client"

def OPENSTACKSDK : String := "openstacksdk"

def POD_RESOURCES_CLIENT : String := "pod-resources-client"

/-- Python dict subscription `_clients[key]`: the value if the key is
present, a raised `KeyError` otherwise. -/
def dictGet (r : Registry) (k : String) : Except PyErr Handle :=
  match alookup r k with
  | some v => .ok v
  | none => .error (.keyError k)

/-- Configuration values read by the module (`config.CONF`); the
`kubernetes.api_root` and `neutron.region_name` options are optional, per
the external-interface section of the specification. -/
structure Config where
  kubernetes_api_root : Option String
  neutron_region_name : Option String
  sriov_kubelet_root_dir : String
deriving Repr, DecidableEq

/-- Python truthiness of an optional string option: an unset option and
the empty string are falsy. -/
def truthyStr : Option String → Bool
  | none => false
  | some s => !s.data.isEmpty

/-- The process environment `os.environ`, a finite string-to-string map. -/
abbrev Env := List (String × String)

/-- Environment subscription `os.environ[key]`: the value if the variable
is present, a raised `KeyError` otherwise. -/
def envGet (env : Env) (k : String) : Except PyErr String :=
  match alookup env k with
  | some v => .ok v
  | none => .error (.keyError k)

/-! Accessors.  Each accessor takes the registry and returns it unchanged
(first component) together with its result; `get_neutron_client` also
returns the deprecation warnings its decorator emits. -/

/-- Embeds `get_network_client`: `_clients[_OPENSTACKSDK].network`.  The
attribute access fails with `AttributeError` on a handle that is not a
connection (unreachable in states produced by the factories). -/
def get_network_client (r : Registry) :
    Registry × Except PyErr NetworkClient :=
  (r, match dictGet r OPENSTACKSDK with
      | .error e => .error e
      | .ok (.conn c) => .ok c.network
      | .ok _ => .error (.attributeError "network"))

/-- Embeds `get_neutron_client`, decorated with `removals.remove` from
debtcollector: every call emits a deprecation warning and then returns
`_clients[_NEUTRON_CLIENT]`.  The middle component is the list of
warnings emitted by the call. -/
def get_neutron_client (r : Registry) :
    Registry × List String × Except PyErr Handle :=
  (r, ["Using function/method get_neutron_client is deprecated"],
    dictGet r NEUTRON_CLIENT)

/-- Embeds `get_openstacksdk`: `_clients[_OPENSTACKSDK]`. -/
def get_openstacksdk (r : Registry) : Registry × Except PyErr Handle :=
  (r, dictGet r OPENSTACKSDK)

/-- Embeds `get_loadbalancer_client`: `get_openstacksdk().load_balancer`. -/
def get_loadbalancer_client (r : Registry) :
    Registry × Except PyErr LoadBalancerClient :=
  (r, match (get_openstacksdk r).2 with
      | .error e => .error e
      | .ok (.conn c) => .ok c.load_balancer
      | .ok _ => .error (.attributeError "load_balancer"))

/-- Embeds `get_kubernetes_client`: `_clients[_KUBERNETES_CLIENT]`. -/
def get_kubernetes_client (r : Registry) : Registry × Except PyErr Handle :=
  (r, dictGet r KUBERNETES_CLIENT)

/-- Embeds `get_pod_resources_client`: `_clients[_POD_RESOURCES_CLIENT]`. -/
def get_pod_resources_client (r : Registry) :
    Registry × Except PyErr Handle :=
  (r, dictGet r POD_RESOURCES_CLIENT)

/-- Embeds `get_compute_client`: `_clients[_OPENSTACKSDK].compute`. -/
def get_compute_client (r : Registry) :
    Registry × Except PyErr ComputeClient :=
  (r, match dictGet r OPENSTACKSDK with
      | .error e => .error e
      | .ok (.conn c) => .ok c.compute
      | .ok _ => .error (.attributeError "compute"))

/-! Factories.  Each factory takes the registry and returns the updated
registry together with the exception it raised, if any (`none` on
success); a factory that raises leaves the registry as it was, because
the assignment into `_clients` is the last statement. -/

/-- Embeds `setup_neutron_client`: stores the client built by the external
`kuryr.lib.utils.get_neutron_client()` under the legacy key. -/
def setup_neutron_client (r : Registry) : Registry × Option PyErr :=
  (assocSet r NEUTRON_CLIENT (.neutron .mk), none)

/-- Embeds `setup_kubernetes_client`: prefers a truthy
`config.CONF.kubernetes.api_root`; otherwise reads the two service
environment variables (a missing one raises `KeyError`), wraps the host
in brackets when `ipaddress.ip_address` classifies it as IPv6, and builds
the `https` URL; finally stores a `K8sClient` bound to the root. -/
def setup_kubernetes_client (cfg : Config) (env : Env) (r : Registry) :
    Registry × Option PyErr :=
  if truthyStr cfg.kubernetes_api_root then
    (assocSet r KUBERNETES_CLIENT (.k8s ⟨cfg.kubernetes_api_root.getD ""⟩),
      none)
  else
    match envGet env "KUBERNETES_SERVICE_HOST" with
    | .error e => (r, some e)
    | .ok host =>
        match envGet env "KUBERNETES_SERVICE_PORT_HTTPS" with
        | .error e => (r, some e)
        | .ok port =>
            let host2 := match ip_address host with
              | some .v6 => "[" ++ host ++ "]"
              | _ => host
            (assocSet r KUBERNETES_CLIENT
              (.k8s ⟨"https://" ++ host2 ++ ":" ++ port⟩), none)

/-- Embeds `setup_openstacksdk`: builds a connection (auth plugin and
session come from external `kuryr.lib` helpers) with the configured
region, assigns the three extra operations onto its network proxy one
after the other, and only then stores the connection. -/
def setup_openstacksdk (cfg : Config) (r : Registry) :
    Registry × Option PyErr :=
  let conn := Connection.new cfg.neutron_region_name
  let conn := { conn with network :=
    { conn.network with create_ports_attached := true } }
  let conn := { conn with network :=
    { conn.network with add_trunk_subports_attached := true } }
  let conn := { conn with network :=
    { conn.network with delete_trunk_subports_attached := true } }
  (assocSet r OPENSTACKSDK (.conn conn), none)

/-- Embeds `setup_pod_resources_client`: stores a client rooted at the
configured kubelet root directory. -/
def setup_pod_resources_client (cfg : Config) (r : Registry) :
    Registry × Option PyErr :=
  (assocSet r POD_RESOURCES_CLIENT (.pod_resources ⟨cfg.sriov_kubelet_root_dir⟩),
    none)

/-- Embeds `setup_clients`: runs the neutron, kubernetes and openstacksdk
factories in that order; an exception aborts the sequence, keeping the
writes already made. -/
def setup_clients (cfg : Config) (env : Env) (r : Registry) :
    Registry × Option PyErr :=
  let s1 := setup_neutron_client r
  match s1.2 with
  | some e => (s1.1, some e)
  | none =>
      let s2 := setup_kubernetes_client cfg env s1.1
      match s2.2 with
      | some e => (s2.1, some e)
      | none => setup_openstacksdk cfg s2.1

/-! SDK patch layer: the three operations assigned onto the network proxy.
The HTTP call each of them issues is modelled by a function argument
(`post` or `put`) mapping the request URL and JSON body to the response
the backend returns. -/

/-- An HTTP response as the patch layer reads it: the `requests` success
flag, the status code, the body text and the parsed JSON body. -/
structure Response where
  ok : Bool
  status_code : Nat
  text : String
  json : JVal

/-- The collection base path `openstack.network.v2.port.Port.base_path`. -/
def port_base_path : String := "/ports"

/-- A port model object; `os_port.Port(**item)` binds the attributes of
one response item. -/
structure Port where
  attributes : List (String × JVal)

/-- One `os_port.Port(**item)` per item of the response list, in order;
a non-dict item fails like the Python `**` unpacking would. -/
def portsFromItems : List JVal → Except PyErr (List Port)
  | [] => .ok []
  | .jdict item :: rest =>
      match portsFromItems rest with
      | .ok ps => .ok (⟨item⟩ :: ps)
      | .error e => .error e
  | _ :: _ => .error (.typeError "argument must be a mapping")

/-- Embeds `_create_ports`: posts the payload to the port base path, and
on a response whose `ok` flag is false raises an SDKException given the
format string and the response text as its two positional arguments — so
the response text lands in `extra_data` and the format placeholder in
the message is never interpolated.  On a
true `ok` flag it produces one `Port` per item of the `ports` list of the
response JSON (the Python generator is modelled as the list of its
elements). -/
def create_ports (post : String → JVal → Response) (payload : JVal) :
    Except PyErr (List Port) :=
  let response := post port_base_path payload
  if !response.ok then
    .error (.sdkException "Error when bulk creating ports: %s"
      (some response.text))
  else
    match response.json with
    | .jdict d =>
        match alookup d "ports" with
        | some (.jlist items) => portsFromItems items
        | some _ => .error (.typeError "object is not iterable")
        | none => .error (.keyError "ports")
    | _ => .error (.typeError "object is not subscriptable")

/-- A trunk resource: its identifier and its cached attribute dict
(`trunk._body.attributes`). -/
structure Trunk where
  id : String
  attributes : List (String × JVal)

/-- Argument of the trunk operations: either an already resolved trunk
resource or a trunk identifier. -/
inductive TrunkRef where
  | res (t : Trunk)
  | ident (s : String)

/-- Model of `Proxy._get_resource(os_trunk.Trunk, trunk)`: a resolved
resource is returned as is, an identifier yields a fresh resource with
that id and no cached attributes. -/
def get_resource : TrunkRef → Trunk
  | .res t => t
  | .ident s => ⟨s, []⟩

/-- Python `str.strip` of one character from both ends. -/
def stripChar (c : Char) (s : String) : String :=
  ⟨((s.data.dropWhile (· = c)).reverse.dropWhile (· = c)).reverse⟩

/-- Model of `openstack.utils.urljoin`: joins the arguments with single
slashes after stripping slashes from both ends of each. -/
def urljoin (xs : List String) : String :=
  String.intercalate "/" (xs.map (stripChar '/'))

/-- Model of `openstack.exceptions.raise_from_response`: no exception
below status 400; `NotFoundException` for 404, `BadRequestException` for
400, `ConflictException` for 409, `HttpException` for any other status of
400 and above — all of them `SDKException` subclasses.  The response text
stands in for the formatted message. -/
def raise_from_response (response : Response) : Option PyErr :=
  if response.status_code < 400 then none
  else if response.status_code = 404 then
    some (.notFoundException (.str response.text))
  else if response.status_code = 400 then
    some (.badRequestException response.text response.status_code)
  else if response.status_code = 409 then
    some (.conflictException response.text response.status_code)
  else some (.httpException response.text response.status_code)

/-- Embeds `_add_trunk_subports`: resolves the trunk, PUTs the sub-port
list to `trunks/{id}/add_subports`, validates the response with
`raise_from_response`, and on success locally updates the cached
`sub_ports` attribute to the submitted list and returns the trunk. -/
def add_trunk_subports (put : String → JVal → Response) (trunk : TrunkRef)
    (subports : List JVal) : Except PyErr Trunk :=
  let t := get_resource trunk
  let url := urljoin ["/trunks", t.id, "add_subports"]
  let response := put url (.jdict [("sub_ports", .jlist subports)])
  match raise_from_response response with
  | some e => .error e
  | none =>
      .ok { t with
            attributes := assocSet t.attributes "sub_ports" (.jlist subports) }

/-- Embeds `_delete_trunk_subports`: same as the add operation with the
`remove_subports` action segment. -/
def delete_trunk_subports (put : String → JVal → Response) (trunk : TrunkRef)
    (subports : List JVal) : Except PyErr Trunk :=
  let t := get_resource trunk
  let url := urljoin ["/trunks", t.id, "remove_subports"]
  let response := put url (.jdict [("sub_ports", .jlist subports)])
  match raise_from_response response with
  | some e => .error e
  | none =>
      .ok { t with
            attributes := assocSet t.attributes "sub_ports" (.jlist subports) }

/-! Error translator. -/

/-- Python equality between an arbitrary value and a string, as used by
the membership test `error["type"] in (...)`: true exactly for an equal
string. -/
def JVal.eqStr : JVal → String → Bool
  | .str a, b => a == b
  | _, _ => false

/-- Embeds `handle_neutron_errors`: calls the method, and if the result
dict contains a `NeutronError` envelope, raises `NotFoundException` for
the three allow-listed error types and otherwise `SDKException` with the
type and message concatenated; without an envelope the result is returned
unchanged.  Missing sub-fields and non-dict or non-string values fail
with the `KeyError` and `TypeError` the Python subscription and string
concatenation would raise. -/
def handle_neutron_errors {α : Type} (method : α → List (String × JVal))
    (args : α) : Except PyErr (List (String × JVal)) :=
  let result := method args
  match alookup result "NeutronError" with
  | none => .ok result
  | some (.jdict error) =>
      (match alookup error "type" with
       | none => .error (.keyError "type")
       | some tv =>
           if tv.eqStr "RouterNotFound" ||
               tv.eqStr "RouterInterfaceNotFoundForSubnet" ||
               tv.eqStr "SubnetNotFound" then
             match alookup error "message" with
             | none => .error (.keyError "message")
             | some mv => .error (.notFoundException mv)
           else
             match tv with
             | .str t =>
                 match alookup error "message" with
                 | none => .error (.keyError "message")
                 | some (.str m) =>
                     .error (.sdkException (t ++ ": " ++ m) none)
                 | some _ =>
                     .error (.typeError "can only concatenate str to str")
             | _ => .error (.typeError "can only concatenate str to str"))
  | some _ => .error (.typeError "value is not subscriptable by str")

/-! Registry states reachable through the module: the registry starts
empty and is only ever modified by the five setup functions. -/

/-- One invocation of a setup function, with the configuration and
environment it observes. -/
inductive SetupOp where
  | neutron
  | kubernetes (cfg : Config) (env : Env)
  | sdk (cfg : Config)
  | podRes (cfg : Config)
  | clients (cfg : Config) (env : Env)

/-- The registry left behind by one setup invocation (exceptions leave
the already-made writes in place). -/
def runSetup : SetupOp → Registry → Registry
  | .neutron, r => (setup_neutron_client r).1
  | .kubernetes cfg env, r => (setup_kubernetes_client cfg env r).1
  | .sdk cfg, r => (setup_openstacksdk cfg r).1
  | .podRes cfg, r => (setup_pod_resources_client cfg r).1
  | .clients cfg env, r => (setup_clients cfg env r).1

/-- Registry states observable in the process: the empty initial dict and
everything produced from it by setup invocations. -/
inductive Reachable : Registry → Prop where
  | init : Reachable clients_init
  | step (op : SetupOp) {r : Registry} (h : Reachable r) :
      Reachable (runSetup op r)

/-- The network proxy carries all three extra operations. -/
def NetworkClient.fullyPatched (c : NetworkClient) : Bool :=
  c.create_ports_attached && c.add_trunk_subports_attached &&
    c.delete_trunk_subports_attached

/-- Whether the first character list starts with the second. -/
def charsPrefixOf : List Char → List Char → Bool
  | _, [] => true
  | [], _ :: _ => false
  | c :: cs, d :: ds => c == d && charsPrefixOf cs ds

/-- Whether the second character list occurs contiguously inside the
first (substring containment, used to state what an exception message
does or does not contain). -/
def charsContain (hay needle : List Char) : Bool :=
  match hay with
  | [] => needle.isEmpty
  | _ :: rest => charsPrefixOf hay needle || charsContain rest needle

/-! Lemmas about dict lookup and assignment. -/

theorem alookup_assocSet_self {α : Type} (d : List (String × α)) (k : String)
    (v : α) : alookup (assocSet d k v) k = some v := by
  induction d with
  | nil => simp [assocSet, alookup]
  | cons hd tl ih =>
      obtain ⟨k2, v2⟩ := hd
      by_cases h : k2 = k
      · simp [assocSet, alookup, h]
      · simp [assocSet, alookup, h, ih]

theorem alookup_assocSet_ne {α : Type} (d : List (String × α))
    (k k2 : String) (v : α) (h : k2 ≠ k) :
    alookup (assocSet d k v) k2 = alookup d k2 := by
  induction d with
  | nil => simp [assocSet, alookup, Ne.symm h]
  | cons hd tl ih =>
      obtain ⟨k3, v3⟩ := hd
      by_cases h3 : k3 = k
      · subst h3
        simp [assocSet, alookup, Ne.symm h]
      · simp [assocSet, alookup, h3, ih]

/-! Frame lemmas: what each factory leaves untouched. -/

theorem alookup_setup_neutron_ne (r : Registry) (k : String)
    (h : k ≠ NEUTRON_CLIENT) :
    alookup (setup_neutron_client r).1 k = alookup r k := by
  simpa [setup_neutron_client] using alookup_assocSet_ne r NEUTRON_CLIENT k _ h

theorem alookup_setup_kubernetes_ne (cfg : Config) (env : Env) (r : Registry)
    (k : String) (h : k ≠ KUBERNETES_CLIENT) :
    alookup (setup_kubernetes_client cfg env r).1 k = alookup r k := by
  unfold setup_kubernetes_client
  split
  · simpa using alookup_assocSet_ne r KUBERNETES_CLIENT k _ h
  · rcases he1 : envGet env "KUBERNETES_SERVICE_HOST" with e1 | host
    · simp [he1]
    · rcases he2 : envGet env "KUBERNETES_SERVICE_PORT_HTTPS" with e2 | port
      · simp [he1, he2]
      · simpa [he1, he2] using alookup_assocSet_ne r KUBERNETES_CLIENT k _ h

theorem alookup_setup_sdk_ne (cfg : Config) (r : Registry) (k : String)
    (h : k ≠ OPENSTACKSDK) :
    alookup (setup_openstacksdk cfg r).1 k = alookup r k := by
  simpa [setup_openstacksdk] using alookup_assocSet_ne r OPENSTACKSDK k _ h

theorem alookup_setup_pod_resources_ne (cfg : Config) (r : Registry)
    (k : String) (h : k ≠ POD_RESOURCES_CLIENT) :
    alookup (setup_pod_resources_client cfg r).1 k = alookup r k := by
  simpa [setup_pod_resources_client] using
    alookup_assocSet_ne r POD_RESOURCES_CLIENT k _ h

theorem alookup_setup_clients_ne (cfg : Config) (env : Env) (r : Registry)
    (k : String) (h1 : k ≠ NEUTRON_CLIENT) (h2 : k ≠ KUBERNETES_CLIENT)
    (h3 : k ≠ OPENSTACKSDK) :
    alookup (setup_clients cfg env r).1 k = alookup r k := by
  unfold setup_clients
  rcases hs1 : setup_neutron_client r with ⟨r1, e1⟩
  rcases e1 with _ | e
  · rcases hs2 : setup_kubernetes_client cfg env r1 with ⟨r2, e2⟩
    rcases e2 with _ | e
    · have g1 : alookup r1 k = alookup r k := by
        have := alookup_setup_neutron_ne r k h1
        rwa [hs1] at this
      have g2 : alookup r2 k = alookup r1 k := by
        have := alookup_setup_kubernetes_ne cfg env r1 k h2
        rwa [hs2] at this
      have g3 : alookup (setup_openstacksdk cfg r2).1 k = alookup r2 k :=
        alookup_setup_sdk_ne cfg r2 k h3
      simp [hs1, hs2, g1, g2, g3]
    · have g1 : alookup r1 k = alookup r k := by
        have := alookup_setup_neutron_ne r k h1
        rwa [hs1] at this
      have g2 : alookup r2 k = alookup r1 k := by
        have := alookup_setup_kubernetes_ne cfg env r1 k h2
        rwa [hs2] at this
      simp [hs1, hs2, g1, g2]
  · have g1 : alookup r1 k = alookup r k := by
      have := alookup_setup_neutron_ne r k h1
      rwa [hs1] at this
    simp [hs1, g1]

/-- The openstacksdk entry after `setup_clients` is either untouched (the
sequence aborted before `setup_openstacksdk`) or the freshly patched
connection. -/
theorem setup_clients_sdk_entry (cfg : Config) (env : Env) (r : Registry) :
    alookup (setup_clients cfg env r).1 OPENSTACKSDK =
        alookup r OPENSTACKSDK ∨
      ∃ c : Connection,
        alookup (setup_clients cfg env r).1 OPENSTACKSDK = some (.conn c) ∧
          c.network.fullyPatched = true := by
  unfold setup_clients
  rcases hs1 : setup_neutron_client r with ⟨r1, e1⟩
  have g1 : alookup r1 OPENSTACKSDK = alookup r OPENSTACKSDK := by
    have := alookup_setup_neutron_ne r OPENSTACKSDK (by decide)
    rwa [hs1] at this
  rcases e1 with _ | e
  · rcases hs2 : setup_kubernetes_client cfg env r1 with ⟨r2, e2⟩
    have g2 : alookup r2 OPENSTACKSDK = alookup r1 OPENSTACKSDK := by
      have := alookup_setup_kubernetes_ne cfg env r1 OPENSTACKSDK (by decide)
      rwa [hs2] at this
    rcases e2 with _ | e
    · right
      simp only [hs2, setup_openstacksdk, alookup_assocSet_self]
      exact ⟨_, rfl, rfl⟩
    · left
      simp [hs2, g1, g2]
  · left
    simp [g1]

/-- The openstacksdk entry of any reachable registry state is a connection
whose network proxy carries all three extra operations: the only write to
that key happens in `setup_openstacksdk`, after the three assignments. -/
theorem reachable_sdk_entry_patched {r : Registry} (hr : Reachable r) :
    ∀ h, alookup r OPENSTACKSDK = some h →
      ∃ c : Connection, h = .conn c ∧ c.network.fullyPatched = true := by
  induction hr with
  | init => intro h hh; simp [clients_init, alookup] at hh
  | step op hr2 ih =>
      rename_i r0
      intro h hh
      cases op with
      | neutron =>
          apply ih
          rw [← alookup_setup_neutron_ne r0 OPENSTACKSDK (by decide)]
          exact hh
      | kubernetes cfg env =>
          apply ih
          rw [← alookup_setup_kubernetes_ne cfg env r0 OPENSTACKSDK (by decide)]
          exact hh
      | podRes cfg =>
          apply ih
          rw [← alookup_setup_pod_resources_ne cfg r0 OPENSTACKSDK (by decide)]
          exact hh
      | sdk cfg =>
          simp only [runSetup, setup_openstacksdk, alookup_assocSet_self]
            at hh
          exact ⟨_, (Option.some_injective _ hh).symm, rfl⟩
      | clients cfg env =>
          rcases setup_clients_sdk_entry cfg env r0 with hsame | ⟨c, hc, hp⟩
          · apply ih
            rw [← hsame]
            exact hh
          · have : some (Handle.conn c) = some h := by
              rw [← hc]
              exact hh
            exact ⟨c, (Option.some_injective _ this).symm, hp⟩

/-- A successful run of `setup_kubernetes_client` stores a `K8sClient`
under the kubernetes key. -/
theorem setup_kubernetes_client_success_entry (cfg : Config) (env : Env)
    (r : Registry) (h : (setup_kubernetes_client cfg env r).2 = none) :
    ∃ c : K8sClient,
      alookup (setup_kubernetes_client cfg env r).1 KUBERNETES_CLIENT =
        some (.k8s c) := by
  by_cases ht : truthyStr cfg.kubernetes_api_root = true
  · exact ⟨⟨cfg.kubernetes_api_root.getD ""⟩,
      by simp [setup_kubernetes_client, ht, alookup_assocSet_self]⟩
  · rcases he1 : envGet env "KUBERNETES_SERVICE_HOST" with e1 | host
    · exfalso
      simp [setup_kubernetes_client, ht, he1] at h
    · rcases he2 : envGet env "KUBERNETES_SERVICE_PORT_HTTPS" with e2 | port
      · exfalso
        simp [setup_kubernetes_client, ht, he1, he2] at h
      · exact ⟨⟨"https://" ++
            (match ip_address host with
             | some .v6 => "[" ++ host ++ "]"
             | _ => host) ++ ":" ++ port⟩,
          by simp [setup_kubernetes_client, ht, he1, he2,
            alookup_assocSet_self]⟩

/-- C1: for every registry kind, the accessor called while the registry
has no entry for that kind fails with the KeyError on the key of the kind that
realizes the NotInitialized failure of the specification; called after
the corresponding setup it returns exactly the handle instance that setup
stored, and a repeated call on the resulting registry returns that same
instance. -/
theorem registry_accessor_contract (cfg : Config) (env : Env)
    (r r1 : Registry) :
    (alookup r NEUTRON_CLIENT = none →
        (get_neutron_client r).2.2 = .error (.keyError NEUTRON_CLIENT))
  ∧ (alookup r KUBERNETES_CLIENT = none →
        (get_kubernetes_client r).2 = .error (.keyError KUBERNETES_CLIENT))
  ∧ (alookup r OPENSTACKSDK = none →
        (get_openstacksdk r).2 = .error (.keyError OPENSTACKSDK))
  ∧ (alookup r POD_RESOURCES_CLIENT = none →
        (get_pod_resources_client r).2 =
          .error (.keyError POD_RESOURCES_CLIENT))
  ∧ ((get_neutron_client (setup_neutron_client r).1).2.2 =
        .ok (.neutron .mk)
      ∧ (get_neutron_client
          (get_neutron_client (setup_neutron_client r).1).1).2.2 =
        .ok (.neutron .mk))
  ∧ (setup_kubernetes_client cfg env r = (r1, none) →
      ∃ h, alookup r1 KUBERNETES_CLIENT = some h
        ∧ (get_kubernetes_client r1).2 = .ok h
        ∧ (get_kubernetes_client (get_kubernetes_client r1).1).2 = .ok h)
  ∧ ((get_openstacksdk (setup_openstacksdk cfg r).1).2 =
        .ok (.conn ⟨cfg.neutron_region_name, ⟨true, true, true⟩, .mk, .mk⟩)
      ∧ (get_openstacksdk
          (get_openstacksdk (setup_openstacksdk cfg r).1).1).2 =
        .ok (.conn ⟨cfg.neutron_region_name, ⟨true, true, true⟩, .mk, .mk⟩))
  ∧ ((get_pod_resources_client (setup_pod_resources_client cfg r).1).2 =
        .ok (.pod_resources ⟨cfg.sriov_kubelet_root_dir⟩)
      ∧ (get_pod_resources_client
          (get_pod_resources_client (setup_pod_resources_client cfg r).1).1).2 =
        .ok (.pod_resources ⟨cfg.sriov_kubelet_root_dir⟩)) := by
  refine ⟨?_, ?_, ?_, ?_, ?_, ?_, ?_, ?_⟩
  · intro h
    simp [get_neutron_client, dictGet, h]
  · intro h
    simp [get_kubernetes_client, dictGet, h]
  · intro h
    simp [get_openstacksdk, dictGet, h]
  · intro h
    simp [get_pod_resources_client, dictGet, h]
  · constructor <;>
      simp [get_neutron_client, dictGet, setup_neutron_client,
        alookup_assocSet_self]
  · intro hk
    have h2 : (setup_kubernetes_client cfg env r).2 = none := by
      rw [hk]
    obtain ⟨c, hc⟩ := setup_kubernetes_client_success_entry cfg env r h2
    rw [hk] at hc
    refine ⟨.k8s c, hc, ?_, ?_⟩ <;> simp [get_kubernetes_client, dictGet, hc]
  · constructor <;>
      simp [get_openstacksdk, dictGet, setup_openstacksdk, Connection.new,
        alookup_assocSet_self]
  · constructor <;>
      simp [get_pod_resources_client, dictGet, setup_pod_resources_client,
        alookup_assocSet_self]

/-- Witness for C1 at concrete inputs: the empty registry makes every
accessor fail, and each setup makes its accessor return the stored
instance. -/
theorem registry_accessor_contract_witness :
    ((get_neutron_client ([] : Registry)).2.2 =
        .error (.keyError NEUTRON_CLIENT))
  ∧ ((get_kubernetes_client ([] : Registry)).2 =
        .error (.keyError KUBERNETES_CLIENT))
  ∧ ((get_openstacksdk ([] : Registry)).2 = .error (.keyError OPENSTACKSDK))
  ∧ ((get_pod_resources_client ([] : Registry)).2 =
        .error (.keyError POD_RESOURCES_CLIENT))
  ∧ (∃ h, alookup [(KUBERNETES_CLIENT, Handle.k8s ⟨"https://[::1]:443"⟩)]
          KUBERNETES_CLIENT = some h
        ∧ (get_kubernetes_client
            [(KUBERNETES_CLIENT, Handle.k8s ⟨"https://[::1]:443"⟩)]).2 = .ok h
        ∧ (get_kubernetes_client
            (get_kubernetes_client
              [(KUBERNETES_CLIENT, Handle.k8s ⟨"https://[::1]:443"⟩)]).1).2 =
          .ok h) := by
  have h := registry_accessor_contract ⟨none, none, "/var/lib/kubelet"⟩
    [("KUBERNETES_SERVICE_HOST", "::1"),
     ("KUBERNETES_SERVICE_PORT_HTTPS", "443")] []
    [(KUBERNETES_CLIENT, Handle.k8s ⟨"https://[::1]:443"⟩)]
  exact ⟨h.1 rfl, h.2.1 rfl, h.2.2.1 rfl, h.2.2.2.1 rfl,
    h.2.2.2.2.2.1 rfl⟩

/-- C10: each setup function writes only the registry entry of its own
kind and leaves every other key unchanged, `setup_clients` leaves the
pod-resources entry untouched (in particular never creates it), and every
accessor returns the registry exactly as it received it. -/
theorem setup_frame_conditions (cfg : Config) (env : Env) (r : Registry)
    (k : String) :
    (k ≠ NEUTRON_CLIENT →
        alookup (setup_neutron_client r).1 k = alookup r k)
  ∧ (k ≠ KUBERNETES_CLIENT →
        alookup (setup_kubernetes_client cfg env r).1 k = alookup r k)
  ∧ (k ≠ OPENSTACKSDK →
        alookup (setup_openstacksdk cfg r).1 k = alookup r k)
  ∧ (k ≠ POD_RESOURCES_CLIENT →
        alookup (setup_pod_resources_client cfg r).1 k = alookup r k)
  ∧ (k ≠ NEUTRON_CLIENT → k ≠ KUBERNETES_CLIENT → k ≠ OPENSTACKSDK →
        alookup (setup_clients cfg env r).1 k = alookup r k)
  ∧ alookup (setup_clients cfg env r).1 POD_RESOURCES_CLIENT =
      alookup r POD_RESOURCES_CLIENT
  ∧ (get_network_client r).1 = r
  ∧ (get_neutron_client r).1 = r
  ∧ (get_openstacksdk r).1 = r
  ∧ (get_loadbalancer_client r).1 = r
  ∧ (get_kubernetes_client r).1 = r
  ∧ (get_pod_resources_client r).1 = r
  ∧ (get_compute_client r).1 = r := by
  refine ⟨alookup_setup_neutron_ne r k,
    alookup_setup_kubernetes_ne cfg env r k,
    alookup_setup_sdk_ne cfg r k,
    alookup_setup_pod_resources_ne cfg r k,
    alookup_setup_clients_ne cfg env r k,
    alookup_setup_clients_ne cfg env r POD_RESOURCES_CLIENT
      (by decide) (by decide) (by decide),
    rfl, rfl, rfl, rfl, rfl, rfl, rfl⟩

/-- Witness for C10 at concrete inputs: a key distinct from every
registry key is unchanged by each setup. -/
theorem setup_frame_conditions_witness :
    (alookup (setup_neutron_client []).1 "other-key" =
        alookup ([] : Registry) "other-key")
  ∧ (alookup (setup_kubernetes_client
        ⟨some "https://example:6443", none, "/var/lib/kubelet"⟩ [] []).1
        "other-key" = alookup ([] : Registry) "other-key")
  ∧ (alookup (setup_openstacksdk
        ⟨some "https://example:6443", none, "/var/lib/kubelet"⟩ []).1
        "other-key" = alookup ([] : Registry) "other-key")
  ∧ (alookup (setup_pod_resources_client
        ⟨some "https://example:6443", none, "/var/lib/kubelet"⟩ []).1
        "other-key" = alookup ([] : Registry) "other-key")
  ∧ (alookup (setup_clients
        ⟨some "https://example:6443", none, "/var/lib/kubelet"⟩ [] []).1
        "other-key" = alookup ([] : Registry) "other-key") := by
  have h := setup_frame_conditions
    ⟨some "https://example:6443", none, "/var/lib/kubelet"⟩ [] [] "other-key"
  exact ⟨h.1 (by decide), h.2.1 (by decide), h.2.2.1 (by decide),
    h.2.2.2.1 (by decide),
    h.2.2.2.2.1 (by decide) (by decide) (by decide)⟩

/-- C2 (amended): the kubernetes factory uses a non-empty configured
api_root verbatim, for every environment; with the option unset or empty
it builds the root from the two service environment variables, bracketing
the host exactly when the Python ip-address parser classifies it as
IPv6. -/
theorem setup_kubernetes_client_api_root (cfg : Config) (env : Env)
    (r : Registry) (s host port : String) :
    (cfg.kubernetes_api_root = some s → s ≠ "" →
        setup_kubernetes_client cfg env r =
          (assocSet r KUBERNETES_CLIENT (.k8s ⟨s⟩), none))
  ∧ (truthyStr cfg.kubernetes_api_root = false →
      alookup env "KUBERNETES_SERVICE_HOST" = some host →
      alookup env "KUBERNETES_SERVICE_PORT_HTTPS" = some port →
        setup_kubernetes_client cfg env r =
          (assocSet r KUBERNETES_CLIENT
            (.k8s ⟨"https://" ++
              (if ip_address host = some .v6 then "[" ++ host ++ "]"
               else host) ++ ":" ++ port⟩), none)) := by
  constructor
  · intro hs hne
    have ht2 : truthyStr (some s) = true := by
      cases s with
      | mk l =>
          cases l with
          | nil => exact absurd rfl hne
          | cons c cs => rfl
    simp [setup_kubernetes_client, hs, ht2]
  · intro ht hhost hport
    simp only [setup_kubernetes_client, ht, Bool.false_eq_true, if_false,
      envGet, hhost, hport]
    have : (match ip_address host with
        | some IPVersion.v6 => "[" ++ host ++ "]"
        | _ => host) =
        (if ip_address host = some .v6 then "[" ++ host ++ "]" else host) := by
      rcases hip : ip_address host with _ | v
      · simp [hip]
      · cases v <;> simp [hip]
    rw [this]

/-- Witness for C2 at the concrete examples of the specification: a configured
root is used verbatim with the environment ignored; an IPv6 host is
bracketed; a hostname is not. -/
theorem setup_kubernetes_client_api_root_witness :
    (setup_kubernetes_client ⟨some "https://example:6443", none, "/v"⟩
        [("KUBERNETES_SERVICE_HOST", "::1"),
         ("KUBERNETES_SERVICE_PORT_HTTPS", "443")] [] =
      (assocSet [] KUBERNETES_CLIENT (.k8s ⟨"https://example:6443"⟩), none))
  ∧ (setup_kubernetes_client ⟨none, none, "/v"⟩
        [("KUBERNETES_SERVICE_HOST", "::1"),
         ("KUBERNETES_SERVICE_PORT_HTTPS", "443")] [] =
      (assocSet [] KUBERNETES_CLIENT (.k8s ⟨"https://[::1]:443"⟩), none))
  ∧ (setup_kubernetes_client ⟨none, none, "/v"⟩
        [("KUBERNETES_SERVICE_HOST", "my-host"),
         ("KUBERNETES_SERVICE_PORT_HTTPS", "8443")] [] =
      (assocSet [] KUBERNETES_CLIENT (.k8s ⟨"https://my-host:8443"⟩), none)) := by
  refine ⟨(setup_kubernetes_client_api_root _ _ [] "https://example:6443"
      "" "").1 rfl (by decide), ?_, ?_⟩
  · exact (setup_kubernetes_client_api_root ⟨none, none, "/v"⟩
      [("KUBERNETES_SERVICE_HOST", "::1"),
       ("KUBERNETES_SERVICE_PORT_HTTPS", "443")] [] "" "::1" "443").2
      rfl rfl rfl
  · exact (setup_kubernetes_client_api_root ⟨none, none, "/v"⟩
      [("KUBERNETES_SERVICE_HOST", "my-host"),
       ("KUBERNETES_SERVICE_PORT_HTTPS", "8443")] [] "" "my-host" "8443").2
      rfl rfl rfl

/-- Counterexample for C2 as stated: with the api_root option set to the
empty string the factory does not use the configured value verbatim — it
ignores it (the Python truthiness test fails) and builds the root from
the environment instead. -/
theorem setup_kubernetes_client_empty_root_cex :
    (⟨some "", none, "/v"⟩ : Config).kubernetes_api_root = some ""
  ∧ alookup (setup_kubernetes_client ⟨some "", none, "/v"⟩
        [("KUBERNETES_SERVICE_HOST", "::1"),
         ("KUBERNETES_SERVICE_PORT_HTTPS", "443")] []).1 KUBERNETES_CLIENT =
      some (.k8s ⟨"https://[::1]:443"⟩)
  ∧ (K8sClient.mk "https://[::1]:443" ≠ K8sClient.mk "") :=
  ⟨rfl, rfl, by decide⟩

/-- C3: with the api_root option unset and at least one of the two
service environment variables absent, the kubernetes factory stores
nothing and fails with the KeyError on a missing variable that realizes
the MissingConfiguration failure of the specification. -/
theorem setup_kubernetes_client_missing_env (cfg : Config) (env : Env)
    (r : Registry) (hroot : cfg.kubernetes_api_root = none)
    (henv : alookup env "KUBERNETES_SERVICE_HOST" = none ∨
        alookup env "KUBERNETES_SERVICE_PORT_HTTPS" = none) :
    ∃ k, setup_kubernetes_client cfg env r = (r, some (.keyError k))
      ∧ alookup env k = none
      ∧ (k = "KUBERNETES_SERVICE_HOST" ∨
          k = "KUBERNETES_SERVICE_PORT_HTTPS") := by
  have ht : truthyStr cfg.kubernetes_api_root = false := by
    rw [hroot]
    rfl
  rcases hh : alookup env "KUBERNETES_SERVICE_HOST" with _ | host
  · exact ⟨"KUBERNETES_SERVICE_HOST",
      by simp [setup_kubernetes_client, ht, envGet, hh], hh, Or.inl rfl⟩
  · rcases henv with hl | hp
    · rw [hh] at hl
      exact absurd hl (by simp)
    · exact ⟨"KUBERNETES_SERVICE_PORT_HTTPS",
        by simp [setup_kubernetes_client, ht, envGet, hh, hp], hp,
        Or.inr rfl⟩

/-- Witness for C3 at a concrete input: empty environment, unset
option. -/
theorem setup_kubernetes_client_missing_env_witness :
    ∃ k, setup_kubernetes_client ⟨none, none, "/v"⟩ [] [] =
        ([], some (.keyError k))
      ∧ alookup ([] : Env) k = none
      ∧ (k = "KUBERNETES_SERVICE_HOST" ∨
          k = "KUBERNETES_SERVICE_PORT_HTTPS") :=
  setup_kubernetes_client_missing_env ⟨none, none, "/v"⟩ [] [] rfl
    (Or.inl rfl)

/-- C4: evaluating bulk port creation at a failing response (ok flag
false, body text "boom") shows the raised SDKException carries the
response text only as its `extra_data` attribute, while its message is
the uninterpolated format string, which does not contain the response
text — contrary to the claim that the message contains the body text. -/
theorem create_ports_failure_message :
    create_ports (fun _ _ => ⟨false, 500, "boom", .jdict []⟩) (.jdict []) =
        .error (.sdkException "Error when bulk creating ports: %s"
          (some "boom"))
      ∧ charsContain "Error when bulk creating ports: %s".data "boom".data =
          false :=
  ⟨rfl, by decide⟩

/-- Every item a dict gives one port per item in order. -/
theorem portsFromItems_spec (items : List JVal)
    (hitems : ∀ i ∈ items, ∃ e, i = JVal.jdict e) :
    ∃ ps, portsFromItems items = .ok ps ∧ ps.length = items.length ∧
      ∀ (n : Nat) (e : List (String × JVal)),
        items.get? n = some (.jdict e) → ps.get? n = some ⟨e⟩ := by
  induction items with
  | nil =>
      refine ⟨[], rfl, rfl, ?_⟩
      intro n e h
      cases n <;> simp at h
  | cons hd tl ih =>
      obtain ⟨e, he⟩ := hitems hd (by simp)
      subst he
      obtain ⟨ps, hps, hlen, hget⟩ :=
        ih (fun i hi => hitems i (by simp [hi]))
      refine ⟨⟨e⟩ :: ps, ?_, by simp [hlen], ?_⟩
      · simp [portsFromItems, hps]
      · intro n e2 hn
        cases n with
        | zero =>
            simp at hn
            simp [hn]
        | succ m =>
            rw [List.get?_cons_succ] at hn ⊢
            exact hget m e2 hn

/-- C5: for a response with a true ok flag whose JSON body maps "ports"
to a list of dict items, bulk port creation returns one port object per
item, in the order of the list (the Python generator is modelled by the
finite list of the values it yields). -/
theorem create_ports_success_ports (resp : Response) (payload : JVal)
    (d : List (String × JVal)) (items : List JVal)
    (hok : resp.ok = true) (hjson : resp.json = .jdict d)
    (hports : alookup d "ports" = some (.jlist items))
    (hitems : ∀ i ∈ items, ∃ e, i = JVal.jdict e) :
    ∃ ps : List Port, create_ports (fun _ _ => resp) payload = .ok ps ∧
      ps.length = items.length ∧
      ∀ (n : Nat) (e : List (String × JVal)),
        items.get? n = some (.jdict e) → ps.get? n = some ⟨e⟩ := by
  obtain ⟨ps, hps, hlen, hget⟩ := portsFromItems_spec items hitems
  exact ⟨ps, by simp [create_ports, hok, hjson, hports, hps], hlen, hget⟩

/-- Witness for C5 at the example of the specification: a body with two port
items yields exactly those two ports in order. -/
theorem create_ports_success_ports_witness :
    ∃ ps : List Port, create_ports (fun _ _ =>
        ⟨true, 201, "",
          .jdict [("ports", .jlist [.jdict [("id", .str "a")],
            .jdict [("id", .str "b")]])]⟩) (.jdict []) = .ok ps ∧
      ps.length = [JVal.jdict [("id", JVal.str "a")],
        JVal.jdict [("id", JVal.str "b")]].length ∧
      ∀ (n : Nat) (e : List (String × JVal)),
        [JVal.jdict [("id", JVal.str "a")],
          JVal.jdict [("id", JVal.str "b")]].get? n = some (.jdict e) →
          ps.get? n = some ⟨e⟩ :=
  create_ports_success_ports
    ⟨true, 201, "",
      .jdict [("ports", .jlist [.jdict [("id", .str "a")],
        .jdict [("id", .str "b")]])]⟩ (.jdict []) _ _ rfl rfl rfl
    (by
      intro i hi
      simp at hi
      rcases hi with rfl | rfl
      · exact ⟨_, rfl⟩
      · exact ⟨_, rfl⟩)

/-- C6: each trunk sub-port mutation raises NotFound on a 404 response
and an SDKException-class error on any other status of 400 and above; on
a 2xx response it returns the trunk with the cached sub_ports attribute
set to exactly the submitted list, the id and all other cached attributes
unchanged — the update is computed from the local trunk object alone,
with no further backend request. -/
theorem trunk_subports_mutations (resp : Response) (trunk : TrunkRef)
    (subports : List JVal) :
    (resp.status_code = 404 →
        add_trunk_subports (fun _ _ => resp) trunk subports =
            .error (.notFoundException (.str resp.text))
          ∧ delete_trunk_subports (fun _ _ => resp) trunk subports =
            .error (.notFoundException (.str resp.text)))
  ∧ (400 ≤ resp.status_code → resp.status_code ≠ 404 →
        (∃ e, add_trunk_subports (fun _ _ => resp) trunk subports =
            .error e ∧ e.isSDKError = true ∧ e.isNotFound = false)
          ∧ (∃ e, delete_trunk_subports (fun _ _ => resp) trunk subports =
            .error e ∧ e.isSDKError = true ∧ e.isNotFound = false))
  ∧ (200 ≤ resp.status_code → resp.status_code < 300 →
        (∃ t, add_trunk_subports (fun _ _ => resp) trunk subports = .ok t
          ∧ t.id = (get_resource trunk).id
          ∧ alookup t.attributes "sub_ports" = some (.jlist subports)
          ∧ ∀ k, k ≠ "sub_ports" →
              alookup t.attributes k =
                alookup (get_resource trunk).attributes k)
          ∧ (∃ t, delete_trunk_subports (fun _ _ => resp) trunk subports =
              .ok t
            ∧ t.id = (get_resource trunk).id
            ∧ alookup t.attributes "sub_ports" = some (.jlist subports)
            ∧ ∀ k, k ≠ "sub_ports" →
                alookup t.attributes k =
                  alookup (get_resource trunk).attributes k)) := by
  refine ⟨?_, ?_, ?_⟩
  · intro h404
    have hlt : ¬ resp.status_code < 400 := by omega
    constructor <;>
      simp [add_trunk_subports, delete_trunk_subports, raise_from_response,
        hlt, h404]
  · intro hge hne
    have hlt : ¬ resp.status_code < 400 := by omega
    constructor
    · by_cases h400 : resp.status_code = 400
      · refine ⟨.badRequestException resp.text 400, ?_, rfl, rfl⟩
        simp [add_trunk_subports, raise_from_response, hlt, hne, h400]
      · by_cases h409 : resp.status_code = 409
        · refine ⟨.conflictException resp.text 409, ?_, rfl, rfl⟩
          simp [add_trunk_subports, raise_from_response, hlt, hne, h400,
            h409]
        · refine ⟨.httpException resp.text resp.status_code, ?_, rfl, rfl⟩
          simp [add_trunk_subports, raise_from_response, hlt, hne, h400,
            h409]
    · by_cases h400 : resp.status_code = 400
      · refine ⟨.badRequestException resp.text 400, ?_, rfl, rfl⟩
        simp [delete_trunk_subports, raise_from_response, hlt, hne, h400]
      · by_cases h409 : resp.status_code = 409
        · refine ⟨.conflictException resp.text 409, ?_, rfl, rfl⟩
          simp [delete_trunk_subports, raise_from_response, hlt, hne, h400,
            h409]
        · refine ⟨.httpException resp.text resp.status_code, ?_, rfl, rfl⟩
          simp [delete_trunk_subports, raise_from_response, hlt, hne, h400,
            h409]
  · intro h200 h300
    have hlt : resp.status_code < 400 := by omega
    constructor
    · refine ⟨{ get_resource trunk with
          attributes := assocSet (get_resource trunk).attributes
            "sub_ports" (.jlist subports) }, ?_, rfl,
        alookup_assocSet_self _ _ _, fun k hk =>
          alookup_assocSet_ne _ _ _ _ hk⟩
      simp [add_trunk_subports, raise_from_response, hlt]
    · refine ⟨{ get_resource trunk with
          attributes := assocSet (get_resource trunk).attributes
            "sub_ports" (.jlist subports) }, ?_, rfl,
        alookup_assocSet_self _ _ _, fun k hk =>
          alookup_assocSet_ne _ _ _ _ hk⟩
      simp [delete_trunk_subports, raise_from_response, hlt]

/-- Witness for C6 at concrete responses: a 404 raises NotFound, a 500
raises an SDKException-class error, and a 200 on a trunk with one prior
attribute sets the sub_ports attribute and keeps the other one. -/
theorem trunk_subports_mutations_witness :
    (add_trunk_subports
        (fun _ _ => ⟨false, 404, "not found", .jdict []⟩)
        (.res ⟨"t1", [("name", .str "trunk1")]⟩) [.jdict [("port_id", .str "p")]] =
          .error (.notFoundException (.str "not found"))
      ∧ delete_trunk_subports
          (fun _ _ => ⟨false, 404, "not found", .jdict []⟩)
          (.res ⟨"t1", [("name", .str "trunk1")]⟩) [.jdict [("port_id", .str "p")]] =
            .error (.notFoundException (.str "not found")))
  ∧ (∃ e, add_trunk_subports
        (fun _ _ => ⟨false, 500, "server error", .jdict []⟩)
        (.res ⟨"t1", [("name", .str "trunk1")]⟩) [.jdict [("port_id", .str "p")]] =
          .error e ∧ e.isSDKError = true ∧ e.isNotFound = false)
  ∧ (∃ t, add_trunk_subports
        (fun _ _ => ⟨true, 200, "", .jdict []⟩)
        (.res ⟨"t1", [("name", .str "trunk1")]⟩) [.jdict [("port_id", .str "p")]] =
          .ok t
      ∧ t.id = (get_resource (.res ⟨"t1", [("name", .str "trunk1")]⟩)).id
      ∧ alookup t.attributes "sub_ports" =
          some (.jlist [.jdict [("port_id", .str "p")]])
      ∧ ∀ k, k ≠ "sub_ports" →
          alookup t.attributes k =
            alookup (get_resource
              (.res ⟨"t1", [("name", .str "trunk1")]⟩)).attributes k) := by
  refine ⟨(trunk_subports_mutations ⟨false, 404, "not found", .jdict []⟩
      (.res ⟨"t1", [("name", .str "trunk1")]⟩)
      [.jdict [("port_id", .str "p")]]).1 rfl, ?_, ?_⟩
  · exact ((trunk_subports_mutations ⟨false, 500, "server error", .jdict []⟩
      (.res ⟨"t1", [("name", .str "trunk1")]⟩)
      [.jdict [("port_id", .str "p")]]).2.1 (by decide) (by decide)).1
  · exact ((trunk_subports_mutations ⟨true, 200, "", .jdict []⟩
      (.res ⟨"t1", [("name", .str "trunk1")]⟩)
      [.jdict [("port_id", .str "p")]]).2.2 (by decide) (by decide)).1

/-- C7: the error translator passes a result without a NeutronError
envelope through unchanged; with an envelope it raises NotFound for the
three allow-listed types and otherwise an SDKException whose message is
the type, a colon and a space, and the message. -/
theorem handle_neutron_errors_spec {α : Type}
    (method : α → List (String × JVal)) (args : α)
    (errd : List (String × JVal)) (t m : String) :
    (alookup (method args) "NeutronError" = none →
        handle_neutron_errors method args = .ok (method args))
  ∧ (alookup (method args) "NeutronError" = some (.jdict errd) →
      alookup errd "type" = some (.str t) →
      alookup errd "message" = some (.str m) →
      ((t = "RouterNotFound" ∨ t = "RouterInterfaceNotFoundForSubnet" ∨
          t = "SubnetNotFound") →
          handle_neutron_errors method args =
            .error (.notFoundException (.str m)))
        ∧ ((t ≠ "RouterNotFound" ∧ t ≠ "RouterInterfaceNotFoundForSubnet" ∧
            t ≠ "SubnetNotFound") →
            handle_neutron_errors method args =
              .error (.sdkException (t ++ ": " ++ m) none))) := by
  constructor
  · intro h
    simp [handle_neutron_errors, h]
  · intro henv htype hmsg
    constructor
    · intro hmem
      have hcond : (JVal.eqStr (.str t) "RouterNotFound" ||
          JVal.eqStr (.str t) "RouterInterfaceNotFoundForSubnet" ||
          JVal.eqStr (.str t) "SubnetNotFound") = true := by
        rcases hmem with rfl | rfl | rfl <;> simp [JVal.eqStr]
      simp [handle_neutron_errors, henv, htype, hmsg, hcond]
    · intro ⟨h1, h2, h3⟩
      have hcond : (JVal.eqStr (.str t) "RouterNotFound" ||
          JVal.eqStr (.str t) "RouterInterfaceNotFoundForSubnet" ||
          JVal.eqStr (.str t) "SubnetNotFound") = false := by
        simp [JVal.eqStr, h1, h2, h3]
      simp [handle_neutron_errors, henv, htype, hmsg, hcond]

/-- Witness for C7 at the example of the specifications: a SubnetNotFound
envelope raises NotFound, an Other envelope raises SDKException with the
concatenated text, and an envelope-free dict passes through unchanged. -/
theorem handle_neutron_errors_spec_witness :
    handle_neutron_errors (fun x : List (String × JVal) => x)
        [("NeutronError", .jdict [("type", .str "SubnetNotFound"),
          ("message", .str "m")])] =
        .error (.notFoundException (.str "m"))
  ∧ handle_neutron_errors (fun x : List (String × JVal) => x)
        [("NeutronError", .jdict [("type", .str "Other"),
          ("message", .str "m")])] =
        .error (.sdkException ("Other" ++ ": " ++ "m") none)
  ∧ handle_neutron_errors (fun x : List (String × JVal) => x)
        [("ok", .str "fine")] = .ok [("ok", .str "fine")] := by
  refine ⟨?_, ?_, ?_⟩
  · exact ((handle_neutron_errors_spec
      (fun x : List (String × JVal) => x)
      [("NeutronError", JVal.jdict [("type", .str "SubnetNotFound"),
        ("message", .str "m")])]
      [("type", JVal.str "SubnetNotFound"), ("message", JVal.str "m")]
      "SubnetNotFound" "m").2 rfl rfl rfl).1 (Or.inr (Or.inr rfl))
  · exact ((handle_neutron_errors_spec
      (fun x : List (String × JVal) => x)
      [("NeutronError", JVal.jdict [("type", .str "Other"),
        ("message", .str "m")])]
      [("type", JVal.str "Other"), ("message", JVal.str "m")]
      "Other" "m").2 rfl rfl rfl).2
      ⟨by decide, by decide, by decide⟩
  · exact (handle_neutron_errors_spec
      (fun x : List (String × JVal) => x) [("ok", JVal.str "fine")]
      [] "" "").1 rfl

/-- C8: the three extra operations are attached to the network sub-client
before the connection is written into the registry, so in every reachable
registry state any client the network accessor returns carries all three
operations. -/
theorem network_client_always_patched {r : Registry} (hr : Reachable r)
    (c : NetworkClient) (hc : (get_network_client r).2 = .ok c) :
    c.create_ports_attached = true ∧ c.add_trunk_subports_attached = true ∧
      c.delete_trunk_subports_attached = true := by
  unfold get_network_client at hc
  rcases hl : alookup r OPENSTACKSDK with _ | h
  · simp [dictGet, hl] at hc
  · obtain ⟨co, hco, hp⟩ := reachable_sdk_entry_patched hr h hl
    subst hco
    simp [dictGet, hl] at hc
    have hp2 := hp
    simp [NetworkClient.fullyPatched] at hp2
    rw [← hc]
    exact ⟨hp2.1.1, hp2.1.2, hp2.2⟩

/-- Witness for C8 at a concrete reachable state: right after
`setup_openstacksdk` on the empty registry, the network accessor returns
a client with all three operations attached. -/
theorem network_client_always_patched_witness :
    (get_network_client
        (runSetup (.sdk ⟨none, none, "/v"⟩) clients_init)).2 =
      .ok ⟨true, true, true⟩
  ∧ ((⟨true, true, true⟩ : NetworkClient).create_ports_attached = true
      ∧ (⟨true, true, true⟩ : NetworkClient).add_trunk_subports_attached =
        true
      ∧ (⟨true, true, true⟩ : NetworkClient).delete_trunk_subports_attached =
        true) :=
  ⟨rfl, network_client_always_patched
    (Reachable.step (.sdk ⟨none, none, "/v"⟩) Reachable.init)
    ⟨true, true, true⟩ rfl⟩

/-- Counterexample for C9 as stated: in the registry state left by
`setup_openstacksdk` alone, the network accessor returns a client while
the deprecated accessor raises KeyError on its own legacy key, so the
deprecated accessor does not return the handle the network accessor
returns — it reads a different registry entry. -/
theorem get_neutron_client_not_network_cex :
    (get_network_client
        (setup_openstacksdk ⟨none, none, "/v"⟩ clients_init).1).2 =
      .ok ⟨true, true, true⟩
  ∧ (get_neutron_client
        (setup_openstacksdk ⟨none, none, "/v"⟩ clients_init).1).2.2 =
      .error (.keyError NEUTRON_CLIENT) :=
  ⟨rfl, rfl⟩

/-- C9 (amended): every call of the deprecated accessor emits a
deprecation warning and returns the handle registered under its own
legacy neutron-client key — the entry written by `setup_neutron_client`,
not the one the network accessor reads. -/
theorem get_neutron_client_deprecated_own_entry (r : Registry) :
    (get_neutron_client r).2.1 ≠ []
  ∧ (get_neutron_client r).2.2 = dictGet r NEUTRON_CLIENT
  ∧ (∀ h, alookup r NEUTRON_CLIENT = some h →
      (get_neutron_client r).2.2 = .ok h)
  ∧ (get_neutron_client (setup_neutron_client r).1).2.2 =
      .ok (.neutron .mk) := by
  refine ⟨by simp [get_neutron_client], rfl, ?_, ?_⟩
  · intro h hh
    simp [get_neutron_client, dictGet, hh]
  · simp [get_neutron_client, dictGet, setup_neutron_client,
      alookup_assocSet_self]

/-- Witness for C9 at a concrete registry holding the legacy entry. -/
theorem get_neutron_client_deprecated_own_entry_witness :
    (get_neutron_client [(NEUTRON_CLIENT, Handle.neutron .mk)]).2.1 ≠ []
  ∧ (get_neutron_client [(NEUTRON_CLIENT, Handle.neutron .mk)]).2.2 =
      .ok (.neutron .mk) :=
  ⟨(get_neutron_client_deprecated_own_entry
      [(NEUTRON_CLIENT, Handle.neutron .mk)]).1,
    (get_neutron_client_deprecated_own_entry
      [(NEUTRON_CLIENT, Handle.neutron .mk)]).2.2.1 (.neutron .mk) rfl⟩

end KuryrClients
